import Mathlib

/-
Verification of the ADS1115 pressure-check program (src/ads1115.c).

The program is embedded shallowly: C floats become exact rationals (ℚ),
the int16_t sample becomes ℤ with explicit two's-complement conversion,
and the I/O structure of main becomes an explicit event trace
parameterised by an abstract bus and a fuel bound for the poll loop.
-/

namespace ADS1115

/-- The constant `minval 2090.0` : ADC reading at 4 milliamperes (src/ads1115.c:33). -/
def minval : ℚ := 2090

/-- The constant `maxval 10630.0` : ADC reading at 20 milliamperes (src/ads1115.c:34). -/
def maxval : ℚ := 10630

/-- `VPS = 6.144 / maxval` : volts per step (src/ads1115.c:111). -/
def VPS : ℚ := 6.144 / maxval

/-- `slope = (high - low)/(maxval - minval)` (src/ads1115.c:112). -/
def slope (low high : ℚ) : ℚ := (high - low) / (maxval - minval)

/-- `con = slope * minval` (src/ads1115.c:113). -/
def con (low high : ℚ) : ℚ := slope low high * minval

/-- `pressure = (slope * val) - con; if (pressure < 0.0) pressure = 0.0;`
(src/ads1115.c:191-193). -/
def pressure (val : ℤ) (low high : ℚ) : ℚ :=
  if slope low high * (val : ℚ) - con low high < 0 then 0
  else slope low high * (val : ℚ) - con low high

/-- `voltage = val * VPS` (src/ads1115.c:190), diagnostic only. -/
def voltage (val : ℤ) : ℚ := (val : ℚ) * VPS

/-- `if (val < 0 || val > 32768) val = 0;` (src/ads1115.c:187-188). -/
def clampRaw (val : ℤ) : ℤ := if val < 0 ∨ val > 32768 then 0 else val

/-- The three outcomes of the final comparison chain (src/ads1115.c:199-211):
below-minimum CRITICAL, above-maximum CRITICAL, or the OK branch. -/
inductive Branch where
  | belowMin
  | aboveMax
  | inRange
deriving DecidableEq

/-- `if (pressure < minpressure) ... else if (pressure > maxpressure) ... else ...`
(src/ads1115.c:199-211): the below-minimum comparison is evaluated first. -/
def branchOf (p minp maxp : ℚ) : Branch :=
  if p < minp then Branch.belowMin
  else if p > maxp then Branch.aboveMax
  else Branch.inRange

/-- The two verdict severities the program produces. -/
inductive Verdict where
  | OK
  | CRITICAL
deriving DecidableEq

/-- The verdict printed with each branch: CRITICAL on either out-of-bounds
branch, OK otherwise (src/ads1115.c:200,204,208). -/
def verdict (p minp maxp : ℚ) : Verdict :=
  match branchOf p minp maxp with
  | Branch.belowMin => Verdict.CRITICAL
  | Branch.aboveMax => Verdict.CRITICAL
  | Branch.inRange => Verdict.OK

/-- `nagiosexit`: 2 on either CRITICAL branch, 0 on the OK branch
(src/ads1115.c:202,206,210). -/
def nagiosexit (p minp maxp : ℚ) : ℕ :=
  match branchOf p minp maxp with
  | Branch.belowMin => 2
  | Branch.aboveMax => 2
  | Branch.inRange => 0

/-- `writeBuf[1]` per input channel (src/ads1115.c:136-144); the trailing
`else` of the source takes every input other than 1, 2, 3. -/
def configHigh (input : ℤ) : ℕ :=
  if input = 1 then 0b11000001
  else if input = 2 then 0b11010001
  else if input = 3 then 0b11100001
  else 0b11110001

/-- `writeBuf[2] = 0b10000101` (src/ads1115.c:154). -/
def configLow : ℕ := 0b10000101

/-- The 16-bit configuration word, high byte first. -/
def configWord (input : ℤ) : ℕ := configHigh input * 256 + configLow

/-- Bits 14-12 of the configuration word: the multiplexer code. -/
def muxCode (input : ℤ) : ℕ := configWord input >>> 12 &&& 7

/-- `val = readBuf[0] << 8 | readBuf[1]` (src/ads1115.c:185): big-endian
composition of the two result bytes (each a uint8_t, hence the mod 256). -/
def composeBE (hi lo : ℕ) : ℕ := ((hi % 256) <<< 8) ||| (lo % 256)

/-- The assignment of the composed value to the int16_t variable `val`
(src/ads1115.c:47,185): two's-complement reinterpretation of the low 16 bits. -/
def toInt16 (hi lo : ℕ) : ℤ :=
  if composeBE hi lo < 32768 then (composeBE hi lo : ℤ)
  else (composeBE hi lo : ℤ) - 65536

/-- `minpressure` and `maxpressure` start at -1.0 and each -m / -M occurrence
overwrites one of them with the parsed value (src/ads1115.c:52,71-76). -/
def effectiveThreshold (opt : Option ℚ) : ℚ := opt.getD (-1)

/-- `if (minpressure == -1.0 || maxpressure == -1.0)` : the missing-threshold
rejection test (src/ads1115.c:106). -/
def thresholdMissing (minp maxp : ℚ) : Bool := minp == -1 || maxp == -1

/-- Observable events of one run of main, in program order: an argument-error
message with exit, the open/ioctl of the transport, bus writes and reads with
their payloads or byte counts, a perror-with-exit on a short transfer, and the
final status line with its exit code. -/
inductive Ev where
  | argError
  | busOpen
  | busIoctl
  | busWrite (bytes : List ℕ)
  | busRead (n : ℕ)
  | ioError
  | report (code : ℕ)
deriving DecidableEq

/-- The abstract bus transport of one run: whether open/ioctl succeed, whether
each write transfers all its bytes, the successive 2-byte reads of the config
register answered to the poll loop (none models a short read), and the final
2-byte read of the conversion register. -/
structure Bus where
  openOk : Bool
  ioctlOk : Bool
  configWriteOk : Bool
  polls : ℕ → Option (ℕ × ℕ)
  ptrWriteOk : Bool
  sample : Option (ℕ × ℕ)

/-- The conversion-complete poll loop (src/ads1115.c:165-170): read 2 bytes,
exit on a short read, stop once bit 7 of the first byte is set, else read
again. The C loop is unbounded; fuel bounds the model, none = still polling
when the fuel runs out. Returns the read events and whether the flag was
seen (false = short read). -/
def pollLoop (polls : ℕ → Option (ℕ × ℕ)) : ℕ → ℕ → Option (List Ev × Bool)
  | 0, _ => none
  | fuel + 1, k =>
    match polls k with
    | none => some ([Ev.busRead 2], false)
    | some (hi, _) =>
      if hi % 256 &&& 0x80 ≠ 0 then some ([Ev.busRead 2], true)
      else
        match pollLoop polls fuel (k + 1) with
        | none => none
        | some (evs, ready) => some (Ev.busRead 2 :: evs, ready)

/-- The body of main after option parsing (src/ads1115.c:101-214) as an event
trace: channel range check, missing-threshold check, open, ioctl, 3-byte
config write, poll loop, 1-byte register-pointer write, 2-byte sample read,
then the status line with the nagios exit code computed from the clamped
sample. none models the unbounded poll loop not terminating within fuel. -/
def main (input : ℤ) (minp maxp low high : ℚ) (bus : Bus) (fuel : ℕ) :
    Option (List Ev) :=
  if input < 1 ∨ input > 4 then some [Ev.argError]
  else if thresholdMissing minp maxp then some [Ev.argError]
  else if bus.openOk = false then some [Ev.busOpen, Ev.ioError]
  else if bus.ioctlOk = false then some [Ev.busOpen, Ev.busIoctl, Ev.ioError]
  else if bus.configWriteOk = false then
    some [Ev.busOpen, Ev.busIoctl,
      Ev.busWrite [1, configHigh input, configLow], Ev.ioError]
  else
    match pollLoop bus.polls fuel 0 with
    | none => none
    | some (pollEvs, false) =>
      some ([Ev.busOpen, Ev.busIoctl,
        Ev.busWrite [1, configHigh input, configLow]] ++ pollEvs ++ [Ev.ioError])
    | some (pollEvs, true) =>
      if bus.ptrWriteOk = false then
        some ([Ev.busOpen, Ev.busIoctl,
          Ev.busWrite [1, configHigh input, configLow]] ++ pollEvs ++
          [Ev.busWrite [0], Ev.ioError])
      else
        match bus.sample with
        | none =>
          some ([Ev.busOpen, Ev.busIoctl,
            Ev.busWrite [1, configHigh input, configLow]] ++ pollEvs ++
            [Ev.busWrite [0], Ev.busRead 2, Ev.ioError])
        | some (hi, lo) =>
          some ([Ev.busOpen, Ev.busIoctl,
            Ev.busWrite [1, configHigh input, configLow]] ++ pollEvs ++
            [Ev.busWrite [0], Ev.busRead 2,
             Ev.report (nagiosexit
               (pressure (clampRaw (toInt16 hi lo)) low high) minp maxp)])

/-- A concrete bus whose device never raises the ready flag, used for
witnesses. -/
def idleBus : Bus where
  openOk := true
  ioctlOk := true
  configWriteOk := true
  polls := fun _ => none
  ptrWriteOk := true
  sample := none

/-- Big-endian byte composition equals the arithmetic value hi*256 + lo. -/
theorem composeBE_eq (hi lo : ℕ) : composeBE hi lo = hi % 256 * 256 + lo % 256 := by
  have hb : lo % 256 < 2 ^ 8 := by
    calc lo % 256 < 256 := Nat.mod_lt _ (by norm_num)
    _ = 2 ^ 8 := by norm_num
  unfold composeBE
  rw [Nat.shiftLeft_eq, Nat.mul_comm (hi % 256) (2 ^ 8),
    ← Nat.mul_add_lt_is_or hb (hi % 256)]

/-- Claim C1 (code_bug evidence): with calibration endpoints low = 2, high = 10,
the pressure transform as computed by the code yields 0 at rawAt4mA = 2090 and
8 at rawAt20mA = 10630, not the claimed low = 2 and high = 10: the intercept
`con = slope * minval` drops the `+ low` term, so the round-trip only holds
when low = 0. -/
theorem c1_roundtrip_fails_in_code :
    pressure 2090 2 10 = 0 ∧ pressure 10630 2 10 = 8 ∧
    pressure 2090 2 10 ≠ 2 ∧ pressure 10630 2 10 ≠ 10 := by
  refine ⟨?_, ?_, ?_, ?_⟩ <;> norm_num [pressure, slope, con, minval, maxval]

/-- Claim C2: a raw sample that is negative or exceeds 32768 is replaced by 0
before any further use, so the resulting pressure equals the pressure computed
from raw = 0; that pressure is itself floored to 0 when the un-floored value
at raw = 0 is negative. -/
theorem c2_clamp_out_of_range (v : ℤ) (low high : ℚ) (h : v < 0 ∨ v > 32768) :
    clampRaw v = 0 ∧
    pressure (clampRaw v) low high = pressure 0 low high ∧
    (slope low high * ((0 : ℤ) : ℚ) - con low high < 0 → pressure 0 low high = 0) := by
  have h0 : clampRaw v = 0 := by simp [clampRaw, h]
  refine ⟨h0, by rw [h0], ?_⟩
  intro hneg
  unfold pressure
  rw [if_pos hneg]

/-- Witness for C2 at the concrete out-of-range sample v = -5 with
low = 0, high = 10. -/
theorem c2_clamp_out_of_range_witness :
    clampRaw (-5) = 0 ∧
    pressure (clampRaw (-5)) 0 10 = pressure 0 0 10 ∧
    (slope 0 10 * ((0 : ℤ) : ℚ) - con 0 10 < 0 → pressure 0 0 10 = 0) :=
  c2_clamp_out_of_range (-5) 0 10 (Or.inl (by norm_num))

/-- Claim C4: the verdict is CRITICAL exactly when the reading is strictly
below the minimum or strictly above the maximum, and OK exactly when the
reading lies within the inclusive bounds; in particular a reading equal to a
bound satisfies the corresponding non-strict comparison and yields OK. -/
theorem c4_verdict_characterisation (r minp maxp : ℚ) :
    (verdict r minp maxp = Verdict.CRITICAL ↔ (r < minp ∨ r > maxp)) ∧
    (verdict r minp maxp = Verdict.OK ↔ (minp ≤ r ∧ r ≤ maxp)) := by
  unfold verdict branchOf
  split_ifs with h1 h2
  · exact ⟨⟨fun _ => Or.inl h1, fun _ => rfl⟩,
      ⟨fun hc => hc.elim,
       fun hc => absurd hc.1 (not_le.mpr h1)⟩⟩
  · exact ⟨⟨fun _ => Or.inr h2, fun _ => rfl⟩,
      ⟨fun hc => hc.elim,
       fun hc => absurd hc.2 (not_le.mpr h2)⟩⟩
  · exact ⟨⟨fun hc => hc.elim,
       fun hc => hc.elim (fun hlt => absurd hlt h1) (fun hgt => absurd hgt h2)⟩,
      ⟨fun _ => ⟨not_lt.mp h1, not_lt.mp h2⟩, fun _ => rfl⟩⟩

/-- Claim C5: for every raw sample and every pair of calibration endpoints,
the reported pressure is never negative. -/
theorem c5_pressure_nonneg (val : ℤ) (low high : ℚ) :
    0 ≤ pressure val low high := by
  unfold pressure
  split_ifs with h
  · exact le_refl 0
  · linarith

/-- Claim C7: when high > low the derived slope is strictly positive and the
pressure transform is monotonically non-decreasing in the raw sample. -/
theorem c7_pressure_monotone (low high : ℚ) (hlh : low < high)
    (v1 v2 : ℤ) (h12 : v1 ≤ v2) :
    0 < slope low high ∧ pressure v1 low high ≤ pressure v2 low high := by
  have hs : 0 < slope low high := by
    unfold slope minval maxval
    apply div_pos <;> norm_num
    linarith
  have hcast : (v1 : ℚ) ≤ (v2 : ℚ) := Int.cast_le.mpr h12
  have hmul : slope low high * (v1 : ℚ) ≤ slope low high * (v2 : ℚ) :=
    mul_le_mul_of_nonneg_left hcast hs.le
  refine ⟨hs, ?_⟩
  unfold pressure
  split_ifs with h1 h2 <;> linarith

/-- Witness for C7 at low = 0, high = 10, v1 = 3, v2 = 5. -/
theorem c7_pressure_monotone_witness :
    0 < slope 0 10 ∧ pressure 3 0 10 ≤ pressure 5 0 10 :=
  c7_pressure_monotone 0 10 (by norm_num) 3 5 (by norm_num)

/-- Claim C10: when minPressure > maxPressure the OK branch is unreachable,
every pressure is classified CRITICAL, and a value violating both bounds is
reported by the below-minimum branch because that comparison is first. -/
theorem c10_inverted_bounds (minp maxp p : ℚ) (h : maxp < minp) :
    branchOf p minp maxp ≠ Branch.inRange ∧
    verdict p minp maxp = Verdict.CRITICAL ∧
    (p < minp → p > maxp → branchOf p minp maxp = Branch.belowMin) := by
  unfold verdict branchOf
  split_ifs with h1 h2
  · exact ⟨fun hc => Branch.noConfusion hc, rfl, fun _ _ => rfl⟩
  · exact ⟨fun hc => Branch.noConfusion hc, rfl, fun hlt _ => absurd hlt h1⟩
  · exfalso
    linarith [not_lt.mp h1, not_lt.mp h2]

/-- Witness for C10 at minp = 5, maxp = 3, p = 4 (violating both bounds). -/
theorem c10_inverted_bounds_witness :
    branchOf 4 5 3 ≠ Branch.inRange ∧
    verdict 4 5 3 = Verdict.CRITICAL ∧
    ((4 : ℚ) < 5 → (4 : ℚ) > 3 → branchOf 4 5 3 = Branch.belowMin) :=
  c10_inverted_bounds 5 3 4 (by norm_num)

/-- Claim C3: for each channel 1-4 the configuration write produces exactly
the stated high byte and the fixed low byte 0b10000101; the channel code sits
in bits 14-12 of the 16-bit word (values 4, 5, 6, 7) and is strictly
increasing with the channel number. -/
theorem c3_config_bytes :
    configHigh 1 = 0b11000001 ∧ configHigh 2 = 0b11010001 ∧
    configHigh 3 = 0b11100001 ∧ configHigh 4 = 0b11110001 ∧
    configLow = 0b10000101 ∧
    muxCode 1 = 0b100 ∧ muxCode 2 = 0b101 ∧ muxCode 3 = 0b110 ∧ muxCode 4 = 0b111 ∧
    muxCode 1 < muxCode 2 ∧ muxCode 2 < muxCode 3 ∧ muxCode 3 < muxCode 4 := by
  decide

/-- Claim C8: the composed sample is a two's-complement int16 in
[-32768, 32767], so the upper clamp test `val > 32768` can never hold and the
clamp fires exactly when bit 7 of the first result byte is set; the wire value
40000 (bytes 156, 64) arrives as the negative value -25536 and is clamped to 0
through the negative branch. -/
theorem c8_int16_range (hi lo : ℕ) (hhi : hi < 256) (hlo : lo < 256) :
    (-32768 ≤ toInt16 hi lo ∧ toInt16 hi lo ≤ 32767) ∧
    ¬ toInt16 hi lo > 32768 ∧
    ((toInt16 hi lo < 0 ∨ toInt16 hi lo > 32768) ↔ Nat.testBit hi 7 = true) ∧
    composeBE 156 64 = 40000 ∧ toInt16 156 64 < 0 ∧
    clampRaw (toInt16 156 64) = 0 := by
  have hc := composeBE_eq hi lo
  rw [Nat.mod_eq_of_lt hhi, Nat.mod_eq_of_lt hlo] at hc
  have htb : (Nat.testBit hi 7 = true) ↔ 128 ≤ hi := by
    rw [Nat.testBit_to_div_mod]
    simp only [decide_eq_true_eq]
    omega
  have hval : toInt16 hi lo =
      if hi * 256 + lo < 32768 then ((hi * 256 + lo : ℕ) : ℤ)
      else ((hi * 256 + lo : ℕ) : ℤ) - 65536 := by
    unfold toInt16
    rw [hc]
  rw [hval, htb]
  refine ⟨?_, ?_, ?_, by decide, by decide, by decide⟩
  · split_ifs with h <;> omega
  · split_ifs with h <;> omega
  · split_ifs with h <;> omega

/-- Witness for C8 at the concrete bytes hi = 200, lo = 16. -/
theorem c8_int16_range_witness :
    (-32768 ≤ toInt16 200 16 ∧ toInt16 200 16 ≤ 32767) ∧
    ¬ toInt16 200 16 > 32768 ∧
    ((toInt16 200 16 < 0 ∨ toInt16 200 16 > 32768) ↔ Nat.testBit 200 7 = true) ∧
    composeBE 156 64 = 40000 ∧ toInt16 156 64 < 0 ∧
    clampRaw (toInt16 156 64) = 0 :=
  c8_int16_range 200 16 (by decide) (by decide)

/-- Claim C9: a threshold explicitly supplied as -1.0 is indistinguishable
from an omitted one and is rejected by the missing-threshold check, while any
pair of values other than -1.0 passes that check. -/
theorem c9_sentinel_conflation (v w : ℚ) (hv : v ≠ -1) (hw : w ≠ -1) :
    effectiveThreshold (some (-1)) = effectiveThreshold none ∧
    thresholdMissing (effectiveThreshold (some (-1))) w = true ∧
    thresholdMissing v (effectiveThreshold (some (-1))) = true ∧
    thresholdMissing v w = false := by
  refine ⟨rfl, ?_, ?_, ?_⟩
  · simp [thresholdMissing, effectiveThreshold]
  · simp [thresholdMissing, effectiveThreshold]
  · simp [thresholdMissing, hv, hw]

/-- Witness for C9 at the explicit thresholds v = -2, w = 3. -/
theorem c9_sentinel_conflation_witness :
    effectiveThreshold (some (-1)) = effectiveThreshold none ∧
    thresholdMissing (effectiveThreshold (some (-1))) 3 = true ∧
    thresholdMissing (-2) (effectiveThreshold (some (-1))) = true ∧
    thresholdMissing (-2) 3 = false :=
  c9_sentinel_conflation (-2) 3 (by norm_num) (by norm_num)

/-- Claim C6: a requested channel outside 1-4 is rejected as an argument
error, and the run terminates with no bus interaction: the transport is never
opened, written or read, whatever the bus or the fuel. -/
theorem c6_invalid_channel_no_bus (input : ℤ) (minp maxp low high : ℚ)
    (bus : Bus) (fuel : ℕ) (h : input < 1 ∨ input > 4) :
    main input minp maxp low high bus fuel = some [Ev.argError] ∧
    ∀ evs, main input minp maxp low high bus fuel = some evs →
      Ev.busOpen ∉ evs ∧ (∀ bs, Ev.busWrite bs ∉ evs) ∧ (∀ n, Ev.busRead n ∉ evs) := by
  have hm : main input minp maxp low high bus fuel = some [Ev.argError] := by
    unfold main
    rw [if_pos h]
  refine ⟨hm, fun evs heq => ?_⟩
  rw [hm] at heq
  cases heq
  exact ⟨by simp, fun bs => by simp, fun n => by simp⟩

/-- Witness for C6 at the rejected channels 0 and 5 on a concrete bus. -/
theorem c6_invalid_channel_no_bus_witness :
    main 0 2 8 0 10 idleBus 1 = some [Ev.argError] ∧
    main 5 2 8 0 10 idleBus 1 = some [Ev.argError] :=
  ⟨(c6_invalid_channel_no_bus 0 2 8 0 10 idleBus 1 (Or.inl (by decide))).1,
   (c6_invalid_channel_no_bus 5 2 8 0 10 idleBus 1 (Or.inr (by decide))).1⟩

end ADS1115
